import Mathlib

/-!
Shallow embedding of the perception-to-decision pipeline of the
Opencv-Engelli-Destegi repository (distance classification, zone navigation,
multi-object track state, IoU, and the alert queue / throttles), together
with theorems settling the specification claims.

Modelling conventions:
* Python `time.time()` is passed explicitly as a rational `now`.
* Python floats are modelled as exact rationals `ℚ`; pixel coordinates,
  areas and counters are integers / naturals as in the source.
* Python code that can raise (`ZeroDivisionError`) returns `Option`.
-/

/-! ## DistanceChecker (src/distance_checker.py) -/

/-- Per-class threshold triple, `DistanceChecker.distance_thresholds` entries. -/
structure Thresholds where
  very_close : ℚ
  close : ℚ
  medium : ℚ
deriving DecidableEq

/-- The `distance_thresholds` table from `DistanceChecker.__init__`,
including the `.get(class_name, default)` lookup semantics. -/
def distance_thresholds (class_name : String) : Thresholds :=
  if class_name = "person" then ⟨15/100, 8/100, 4/100⟩
  else if class_name = "car" then ⟨25/100, 15/100, 8/100⟩
  else if class_name = "bicycle" then ⟨12/100, 6/100, 3/100⟩
  else if class_name = "motorcycle" then ⟨12/100, 6/100, 3/100⟩
  else if class_name = "bus" then ⟨35/100, 25/100, 15/100⟩
  else if class_name = "truck" then ⟨35/100, 25/100, 15/100⟩
  else ⟨12/100, 6/100, 3/100⟩

/-- Result record of `DistanceChecker.calculate_distance_info`. -/
structure DistanceInfo where
  relative_size : ℚ
  distance_level : String
  is_close : Bool
  urgency : ℤ
deriving DecidableEq

/-- `DistanceChecker.calculate_distance_info`: `relative_size = area / frame_area`
(a `ZeroDivisionError`, i.e. `none`, when `frame_area = 0`), then the strict
descending threshold ladder. -/
def calculate_distance_info (class_name : String) (object_area : ℤ)
    (frame_area : ℤ) : Option DistanceInfo :=
  if frame_area = 0 then none
  else
    let relative_size : ℚ := (object_area : ℚ) / (frame_area : ℚ)
    let t := distance_thresholds class_name
    if relative_size ≥ t.very_close then
      some ⟨relative_size, "very_close", true, 3⟩
    else if relative_size ≥ t.close then
      some ⟨relative_size, "close", true, 2⟩
    else if relative_size ≥ t.medium then
      some ⟨relative_size, "medium", true, 1⟩
    else
      some ⟨relative_size, "far", false, 0⟩

/-! ## Detections (src/src/assistive_vision/object_detector.py output shape) -/

/-- One per-frame detection dictionary. `urgency` and `distance_meters` are
optional keys (`'urgency' in detection`, `detection.get('distance_meters')`). -/
structure Detection where
  class_id : ℤ
  class_name : String
  confidence : ℚ
  bbox : ℤ × ℤ × ℤ × ℤ
  center : ℤ × ℤ
  area : ℤ
  urgency : Option ℤ
  distance_meters : Option ℚ
deriving DecidableEq

/-! ## ObjectTracker.calculate_iou (src/src/assistive_vision/object_tracker.py) -/

/-- `ObjectTracker.calculate_iou` on integer pixel boxes `(x1, y1, x2, y2)`. -/
def calculate_iou (box1 box2 : ℤ × ℤ × ℤ × ℤ) : ℚ :=
  let (x1_1, y1_1, x2_1, y2_1) := box1
  let (x1_2, y1_2, x2_2, y2_2) := box2
  let x1_i := max x1_1 x1_2
  let y1_i := max y1_1 y1_2
  let x2_i := min x2_1 x2_2
  let y2_i := min y2_1 y2_2
  if x2_i ≤ x1_i ∨ y2_i ≤ y1_i then 0
  else
    let intersection := (x2_i - x1_i) * (y2_i - y1_i)
    let area1 := (x2_1 - x1_1) * (y2_1 - y1_1)
    let area2 := (x2_2 - x1_2) * (y2_2 - y1_2)
    let union := area1 + area2 - intersection
    if union > 0 then (intersection : ℚ) / (union : ℚ) else 0

/-! ## TrackedObject (src/src/assistive_vision/object_tracker.py) -/

/-- Append to a history list, dropping the oldest entry once the list exceeds
`cap` elements (`list.append` followed by `if len > cap: pop(0)`). -/
def push_capped {α : Type} (cap : ℕ) (xs : List α) (x : α) : List α :=
  let ys := xs ++ [x]
  if ys.length > cap then ys.tail else ys

/-- `TrackedObject.min_stable_frames`. -/
def min_stable_frames : ℕ := 3

/-- Persistent per-track state, the fields of `TrackedObject.__init__`. -/
structure TrackedObject where
  track_id : ℕ
  class_id : ℤ
  class_name : String
  positions : List (ℤ × ℤ)
  bboxes : List (ℤ × ℤ × ℤ × ℤ)
  areas : List ℤ
  confidences : List ℚ
  first_seen : ℚ
  last_seen : ℚ
  last_alert_time : ℚ
  consecutive_detections : ℕ
  missed_frames : ℕ
  is_stable : Bool
  distances : List ℚ
  alert_count : ℕ
  last_distance_alert : ℚ
deriving DecidableEq

namespace TrackedObject

/-- `TrackedObject.__init__(detection, track_id)` at wall-clock time `now`. -/
def init (d : Detection) (id : ℕ) (now : ℚ) : TrackedObject where
  track_id := id
  class_id := d.class_id
  class_name := d.class_name
  positions := [d.center]
  bboxes := [d.bbox]
  areas := [d.area]
  confidences := [d.confidence]
  first_seen := now
  last_seen := now
  last_alert_time := 0
  consecutive_detections := 1
  missed_frames := 0
  is_stable := false
  distances := []
  alert_count := 0
  last_distance_alert := 0

/-- `TrackedObject.update(detection)` at wall-clock time `now`. -/
def update (t : TrackedObject) (d : Detection) (now : ℚ) : TrackedObject :=
  { t with
    positions := push_capped 10 t.positions d.center
    bboxes := push_capped 10 t.bboxes d.bbox
    areas := push_capped 10 t.areas d.area
    confidences := push_capped 10 t.confidences d.confidence
    last_seen := now
    consecutive_detections := t.consecutive_detections + 1
    missed_frames := 0
    is_stable :=
      if t.consecutive_detections + 1 ≥ min_stable_frames then true else t.is_stable
    distances :=
      match d.distance_meters with
      | some dist => push_capped 5 t.distances dist
      | none => t.distances }

/-- `TrackedObject.miss_frame()`. -/
def miss_frame (t : TrackedObject) : TrackedObject :=
  { t with
    missed_frames := t.missed_frames + 1
    consecutive_detections := 0 }

/-- `TrackedObject.should_alert(alert_interval)` at time `now`: returns the
boolean result together with the (possibly mutated) track state. -/
def should_alert (t : TrackedObject) (now : ℚ) (alert_interval : ℚ) :
    Bool × TrackedObject :=
  if ¬ t.is_stable then (false, t)
  else if now - t.last_alert_time ≥ alert_interval then
    (true, { t with last_alert_time := now, alert_count := t.alert_count + 1 })
  else (false, t)

/-- `TrackedObject.should_distance_alert(distance_alert_interval)` at time
`now`: boolean result together with the (possibly mutated) track state. -/
def should_distance_alert (t : TrackedObject) (now : ℚ)
    (distance_alert_interval : ℚ) : Bool × TrackedObject :=
  if ¬ t.is_stable ∨ t.distances = [] then (false, t)
  else
    let avg_distance := t.distances.sum / (t.distances.length : ℚ)
    let interval :=
      if avg_distance < 3 then distance_alert_interval / 2
      else if avg_distance < 6 then distance_alert_interval
      else distance_alert_interval * 2
    if now - t.last_distance_alert ≥ interval then
      (true, { t with last_distance_alert := now })
    else (false, t)

/-- `TrackedObject.is_expired(max_age, max_missed)` at time `now`. -/
def is_expired (t : TrackedObject) (now : ℚ) (max_age : ℚ) (max_missed : ℕ) :
    Bool :=
  (now - t.last_seen > max_age) || (t.missed_frames > max_missed)

end TrackedObject

/-- The part of `ObjectTracker.update` that handles the unmatched tracks of a
frame: every unmatched track is sent `miss_frame()`, then all tracks for which
`is_expired()` (with the default arguments `max_age = 5.0`, `max_missed = 10`)
holds are deleted. -/
def update_unmatched_tracks (ts : List TrackedObject) (now : ℚ) :
    List TrackedObject :=
  (ts.map TrackedObject.miss_frame).filter
    (fun t => ¬ TrackedObject.is_expired t now 5 10)

/-! ## NavigationGuide (src/navigation_guide.py) -/

/-- `config.MAX_OBJECTS_PER_ZONE` (src/config.py). -/
def MAX_OBJECTS_PER_ZONE : ℕ := 3

/-- One entry of the dictionary returned by
`NavigationGuide._calculate_zone_boundaries`. -/
structure ZoneBounds where
  x_min : ℤ
  x_max : ℤ
  y_min : ℤ
  y_max : ℤ
deriving DecidableEq

/-- `NavigationGuide._calculate_zone_boundaries(width, height)`.
`int(width * 0.33)` and `int(width * 0.67)` are modelled as the exact
integer parts `(33 * width) / 100` and `(67 * width) / 100` (equal to the
Python value for all nonnegative pixel widths). -/
def calculate_zone_boundaries (width height : ℤ) :
    ZoneBounds × ZoneBounds × ZoneBounds :=
  let left_boundary := (33 * width) / 100
  let right_boundary := (67 * width) / 100
  (⟨0, left_boundary, 0, height⟩,
   ⟨left_boundary, right_boundary, 0, height⟩,
   ⟨right_boundary, width, 0, height⟩)

/-- `NavigationGuide._is_object_in_zone(detection, zone_bounds)`: the center
rule (inclusive bounds on both sides) with the >50 % bounding-box-overlap
fallback. -/
def is_object_in_zone (d : Detection) (z : ZoneBounds) : Bool :=
  let (center_x, center_y) := d.center
  let (x1, y1, x2, y2) := d.bbox
  if z.x_min ≤ center_x ∧ center_x ≤ z.x_max ∧
     z.y_min ≤ center_y ∧ center_y ≤ z.y_max then
    true
  else
    let overlap_x := max 0 (min x2 z.x_max - max x1 z.x_min)
    let overlap_y := max 0 (min y2 z.y_max - max y1 z.y_min)
    let overlap_area := overlap_x * overlap_y
    let object_area := (x2 - x1) * (y2 - y1)
    if object_area > 0 then
      decide ((overlap_area : ℚ) / (object_area : ℚ) > 1/2)
    else false

/-- The per-object risk score used inside `NavigationGuide._analyze_zone`:
the detection's `urgency` when the key is present, otherwise a size-based
fallback score. -/
def zone_risk_score (d : Detection) (frame_h frame_w : ℤ) : ℤ :=
  match d.urgency with
  | some u => u
  | none =>
    let relative_size : ℚ := (d.area : ℚ) / ((frame_h * frame_w : ℤ) : ℚ)
    if relative_size > 15/100 then 3
    else if relative_size > 8/100 then 2
    else 1

/-- `NavigationGuide._is_zone_blocked(zone_objects, density, risk_scores)`
with the density thresholds `{'low': 0.1, 'medium': 0.2, 'high': 0.4}`. -/
def is_zone_blocked (zone_objects : List Detection) (density : ℚ)
    (risk_scores : List ℤ) : Bool :=
  if zone_objects = [] then false
  else if density > 4/10 then true
  else if (match risk_scores.max? with
           | some m => decide (m ≥ 3)
           | none => false) then true
  else if zone_objects.length ≥ MAX_OBJECTS_PER_ZONE then true
  else if density > 2/10 ∧ risk_scores ≠ [] ∧
          (risk_scores.sum : ℚ) / (risk_scores.length : ℚ) ≥ 2 then true
  else false

/-- The dictionary returned by `NavigationGuide._analyze_zone`. -/
structure ZoneAnalysis where
  object_count : ℕ
  objects : List Detection
  total_area : ℤ
  density : ℚ
  blocked : Bool
  risk_level : String
  avg_risk_score : ℚ
  passable : Bool
deriving DecidableEq

/-- `NavigationGuide._analyze_zone(detections, zone_bounds, frame_shape)`. -/
def analyze_zone (detections : List Detection) (z : ZoneBounds)
    (frame_h frame_w : ℤ) : ZoneAnalysis :=
  let zone_objects := detections.filter (fun d => is_object_in_zone d z)
  let total_area := (zone_objects.map (·.area)).sum
  let risk_scores := zone_objects.map (fun d => zone_risk_score d frame_h frame_w)
  let zone_area := (z.x_max - z.x_min) * (z.y_max - z.y_min)
  let density : ℚ :=
    if zone_area > 0 then (total_area : ℚ) / (zone_area : ℚ) else 0
  let blocked := is_zone_blocked zone_objects density risk_scores
  let avg_risk : ℚ :=
    if risk_scores = [] then 0
    else (risk_scores.sum : ℚ) / (risk_scores.length : ℚ)
  let risk_level :=
    if avg_risk ≥ 5/2 ∨ density > 4/10 then "high"
    else if avg_risk ≥ 3/2 ∨ density > 2/10 then "medium"
    else if avg_risk ≥ 1/2 ∨ density > 1/10 then "low"
    else "safe"
  { object_count := zone_objects.length
    objects := zone_objects
    total_area := total_area
    density := density
    blocked := blocked
    risk_level := risk_level
    avg_risk_score := avg_risk
    passable := ¬ blocked ∧ (risk_level = "safe" ∨ risk_level = "low") }

/-- `NavigationGuide._calculate_zone_score(zone_data)`. -/
def calculate_zone_score (zone_data : ZoneAnalysis) : ℚ :=
  if zone_data.blocked then 0
  else
    let risk_penalty : ℚ :=
      if zone_data.risk_level = "safe" then 0
      else if zone_data.risk_level = "low" then 1/10
      else if zone_data.risk_level = "medium" then 3/10
      else if zone_data.risk_level = "high" then 6/10
      else 5/10
    let base_score := 1 - risk_penalty
    let object_penalty := min (2/10) ((zone_data.object_count : ℚ) * (5/100))
    let density_penalty := min (3/10) (zone_data.density * (5/10))
    max 0 (base_score - object_penalty - density_penalty)

/-- The dictionary returned by `NavigationGuide._make_navigation_decision`.
`direction` is `none` for Python `None`. -/
structure NavDecision where
  direction : Option String
  confidence : ℚ
  safe_zones : List String
  risk_level : String
deriving DecidableEq

/-- `NavigationGuide._make_navigation_decision(zone_analysis)`. -/
def make_navigation_decision (left_zone center_zone right_zone : ZoneAnalysis) :
    NavDecision :=
  let safe_zones :=
    (if left_zone.passable then ["left"] else []) ++
    (if center_zone.passable then ["center"] else []) ++
    (if right_zone.passable then ["right"] else [])
  let risk_levels := [left_zone.risk_level, center_zone.risk_level,
                      right_zone.risk_level]
  let overall_risk :=
    if risk_levels.contains "high" then "high"
    else if risk_levels.contains "medium" then "medium"
    else if risk_levels.contains "low" then "low"
    else "safe"
  let dir_conf : Option String × ℚ :=
    if center_zone.passable then (some "forward", 9/10)
    else if center_zone.blocked then
      let left_score := calculate_zone_score left_zone
      let right_score := calculate_zone_score right_zone
      if left_score > right_score ∧ left_zone.passable then
        (some "left", min (8/10) left_score)
      else if right_score > left_score ∧ right_zone.passable then
        (some "right", min (8/10) right_score)
      else if left_zone.passable then (some "left", 6/10)
      else if right_zone.passable then (some "right", 6/10)
      else (some "stop", 9/10)
    else (none, 0)
  { direction := dir_conf.1
    confidence := dir_conf.2
    safe_zones := safe_zones
    risk_level := overall_risk }

/-- The dictionary returned by `NavigationGuide.analyze_regions`. -/
structure AnalysisResult where
  left_zone : ZoneAnalysis
  center_zone : ZoneAnalysis
  right_zone : ZoneAnalysis
  center_blocked : Bool
  recommended_direction : Option String
  confidence : ℚ
  safe_zones : List String
  risk_level : String
  total_objects : ℕ
deriving DecidableEq

/-- The zone record of `NavigationGuide._get_empty_analysis`. -/
def empty_zone : ZoneAnalysis :=
  { object_count := 0, objects := [], total_area := 0, density := 0
    blocked := false, risk_level := "safe", avg_risk_score := 0
    passable := true }

/-- `NavigationGuide.analyze_regions(detections, frame_shape)` with
`frame_shape = (height, width, channels)`. -/
def analyze_regions (detections : List Detection) (frame_h frame_w : ℤ) :
    AnalysisResult :=
  if detections = [] then
    { left_zone := empty_zone, center_zone := empty_zone
      right_zone := empty_zone, center_blocked := false
      recommended_direction := some "forward", confidence := 1
      safe_zones := ["left", "center", "right"], risk_level := "safe"
      total_objects := 0 }
  else
    let zones := calculate_zone_boundaries frame_w frame_h
    let left_zone := analyze_zone detections zones.1 frame_h frame_w
    let center_zone := analyze_zone detections zones.2.1 frame_h frame_w
    let right_zone := analyze_zone detections zones.2.2 frame_h frame_w
    let decision := make_navigation_decision left_zone center_zone right_zone
    { left_zone := left_zone, center_zone := center_zone
      right_zone := right_zone, center_blocked := center_zone.blocked
      recommended_direction := decision.direction
      confidence := decision.confidence
      safe_zones := decision.safe_zones
      risk_level := decision.risk_level
      total_objects := detections.length }

/-! ## VoiceAlert queue (src/src/assistive_vision/voice_alert.py) -/

/-- `config.MAX_ALERT_QUEUE_SIZE` (src/config.py). -/
def MAX_ALERT_QUEUE_SIZE : ℕ := 10

/-- One alert dictionary placed on `VoiceAlert.alert_queue`. -/
structure AlertMessage where
  text : String
  priority : ℤ
  msg_type : String
  track_id : Option ℕ
deriving DecidableEq

/-- `VoiceAlert.__init__` constructs `self.alert_queue = Queue()` with NO
`maxsize` argument, so `alert_queue.put(...)` (as called from
`VoiceAlert.alert_close_object` and every other producer) unconditionally
appends and never blocks or fails: the queue is unbounded. -/
def alert_queue_put (q : List AlertMessage) (m : AlertMessage) :
    List AlertMessage :=
  q ++ [m]

/-- `VoiceAlert.is_queue_full`: `alert_queue.qsize() >= config.MAX_ALERT_QUEUE_SIZE`.
This helper exists in the source but is never consulted before a `put`. -/
def is_queue_full (q : List AlertMessage) : Bool :=
  q.length ≥ MAX_ALERT_QUEUE_SIZE

/-! ## Helper lemmas about the threshold table -/

/-- Every row of the threshold table is positive and strictly descending. -/
lemma distance_thresholds_pos_sorted (class_name : String) :
    0 < (distance_thresholds class_name).medium ∧
    (distance_thresholds class_name).medium < (distance_thresholds class_name).close ∧
    (distance_thresholds class_name).close < (distance_thresholds class_name).very_close := by
  unfold distance_thresholds
  split_ifs <;> norm_num

/-! ## Claim C4 -/

/-- C4 counterexample: `calculate_distance_info` does NOT defensively return
`relative_size = 0` on malformed frame area. With `frame_area = 0` it raises
`ZeroDivisionError` (modelled as `none`), and with `frame_area = -1` it
returns the negative value `relative_size = -100`, not `0`. -/
theorem C4_counterexample :
    calculate_distance_info "person" 100 0 = none ∧
    (calculate_distance_info "person" 100 (-1)).map (·.relative_size) =
      some (-100) := by
  constructor
  · decide
  · norm_num [calculate_distance_info, distance_thresholds]

/-- C4 amended: for nonzero frame area `calculate_distance_info` never fails;
for `frame_area = 0` it raises `ZeroDivisionError` (no defensive handling);
for negative frame area and nonnegative object area it does not raise, and the
(nonpositive) relative size classifies as far / urgency 0 / not close. -/
theorem C4_distance_info_malformed_frame (class_name : String)
    (object_area frame_area : ℤ) :
    (frame_area ≠ 0 →
      ∃ info, calculate_distance_info class_name object_area frame_area = some info) ∧
    (frame_area = 0 →
      calculate_distance_info class_name object_area frame_area = none) ∧
    (frame_area < 0 → 0 ≤ object_area →
      ∃ info, calculate_distance_info class_name object_area frame_area = some info ∧
        info.relative_size ≤ 0 ∧ info.distance_level = "far" ∧
        info.urgency = 0 ∧ info.is_close = false) := by
  obtain ⟨hm, hmc, hcv⟩ := distance_thresholds_pos_sorted class_name
  refine ⟨?_, ?_, ?_⟩
  · intro h
    unfold calculate_distance_info
    rw [if_neg h]
    dsimp only
    split_ifs <;> exact ⟨_, rfl⟩
  · intro h
    unfold calculate_distance_info
    rw [if_pos h]
  · intro hneg hobj
    have hfz : frame_area ≠ 0 := by omega
    have hrel : (object_area : ℚ) / (frame_area : ℚ) ≤ 0 := by
      apply div_nonpos_of_nonneg_of_nonpos
      · exact_mod_cast hobj
      · exact_mod_cast le_of_lt hneg
    unfold calculate_distance_info
    rw [if_neg hfz]
    have h1 : ¬ ((object_area : ℚ) / (frame_area : ℚ) ≥
        (distance_thresholds class_name).very_close) := by
      push_neg; linarith
    have h2 : ¬ ((object_area : ℚ) / (frame_area : ℚ) ≥
        (distance_thresholds class_name).close) := by
      push_neg; linarith
    have h3 : ¬ ((object_area : ℚ) / (frame_area : ℚ) ≥
        (distance_thresholds class_name).medium) := by
      push_neg; linarith
    simp only [h1, h2, h3, if_false]
    exact ⟨_, rfl, hrel, rfl, rfl, rfl⟩

/-- C4 witness: the amended theorem applied at the concrete malformed input
`class_name = "person"`, `object_area = 100`, `frame_area = -1`. -/
theorem C4_distance_info_malformed_frame_witness :
    ∃ info, calculate_distance_info "person" 100 (-1) = some info ∧
      info.relative_size ≤ 0 ∧ info.distance_level = "far" ∧
      info.urgency = 0 ∧ info.is_close = false :=
  (C4_distance_info_malformed_frame "person" 100 (-1)).2.2 (by norm_num) (by norm_num)

/-! ## Claim C8 -/

/-- The urgency computed by `calculate_distance_info` is the threshold-ladder
value of the relative size. -/
lemma cdi_urgency_eq (class_name : String) (a f : ℤ) (hf : f ≠ 0) :
    (calculate_distance_info class_name a f).map (·.urgency) = some (
      if (a : ℚ) / (f : ℚ) ≥ (distance_thresholds class_name).very_close then 3
      else if (a : ℚ) / (f : ℚ) ≥ (distance_thresholds class_name).close then 2
      else if (a : ℚ) / (f : ℚ) ≥ (distance_thresholds class_name).medium then 1
      else 0) := by
  unfold calculate_distance_info
  rw [if_neg hf]
  dsimp only
  split_ifs <;> rfl

/-- C8: for a fixed class and fixed positive frame area,
`calculate_distance_info` classifies by the strict descending threshold
ladder, and the urgency it returns is monotone in the object area. -/
theorem C8_threshold_ladder_monotone (class_name : String) (frame_area : ℤ)
    (hf : 0 < frame_area) :
    (∀ (a : ℤ) (info : DistanceInfo),
        calculate_distance_info class_name a frame_area = some info →
        (info.relative_size = (a : ℚ) / (frame_area : ℚ) ∧
         ((distance_thresholds class_name).very_close ≤ info.relative_size →
            info.distance_level = "very_close" ∧ info.urgency = 3 ∧
            info.is_close = true) ∧
         (info.relative_size < (distance_thresholds class_name).very_close →
          (distance_thresholds class_name).close ≤ info.relative_size →
            info.distance_level = "close" ∧ info.urgency = 2 ∧
            info.is_close = true) ∧
         (info.relative_size < (distance_thresholds class_name).close →
          (distance_thresholds class_name).medium ≤ info.relative_size →
            info.distance_level = "medium" ∧ info.urgency = 1 ∧
            info.is_close = true) ∧
         (info.relative_size < (distance_thresholds class_name).medium →
            info.distance_level = "far" ∧ info.urgency = 0 ∧
            info.is_close = false))) ∧
    (∀ (a1 a2 : ℤ) (i1 i2 : DistanceInfo), a1 ≤ a2 →
        calculate_distance_info class_name a1 frame_area = some i1 →
        calculate_distance_info class_name a2 frame_area = some i2 →
        i1.urgency ≤ i2.urgency) := by
  obtain ⟨hm, hmc, hcv⟩ := distance_thresholds_pos_sorted class_name
  have hfz : frame_area ≠ 0 := by omega
  constructor
  · intro a info h
    unfold calculate_distance_info at h
    rw [if_neg hfz] at h
    dsimp only at h
    split_ifs at h with h1 h2 h3 <;>
      rw [Option.some_inj] at h <;> subst h
    · exact ⟨rfl, fun _ => ⟨rfl, rfl, rfl⟩,
        fun hlt _ => absurd h1 (not_le.mpr hlt),
        fun hlt _ => absurd h1 (not_le.mpr (by linarith)),
        fun hlt => absurd h1 (not_le.mpr (by linarith))⟩
    · exact ⟨rfl, fun hge => absurd hge h1,
        fun _ _ => ⟨rfl, rfl, rfl⟩,
        fun hlt _ => absurd h2 (not_le.mpr hlt),
        fun hlt => absurd h2 (not_le.mpr (by linarith))⟩
    · exact ⟨rfl, fun hge => absurd (le_trans (le_of_lt hcv) hge) h2,
        fun _ hge => absurd hge h2,
        fun _ _ => ⟨rfl, rfl, rfl⟩,
        fun hlt => absurd h3 (not_le.mpr hlt)⟩
    · exact ⟨rfl,
        fun hge => absurd (le_trans (by linarith) hge) h3,
        fun _ hge => absurd (le_trans (le_of_lt hmc) hge) h3,
        fun _ hge => absurd hge h3,
        fun _ => ⟨rfl, rfl, rfl⟩⟩
  · intro a1 a2 i1 i2 hle h1 h2
    have hfc : (0 : ℚ) < (frame_area : ℚ) := by exact_mod_cast hf
    have hrel : (a1 : ℚ) / (frame_area : ℚ) ≤ (a2 : ℚ) / (frame_area : ℚ) :=
      (div_le_div_iff_of_pos_right hfc).mpr (by exact_mod_cast hle)
    have e1 := cdi_urgency_eq class_name a1 frame_area hfz
    have e2 := cdi_urgency_eq class_name a2 frame_area hfz
    rw [h1, Option.map_some', Option.some_inj] at e1
    rw [h2, Option.map_some', Option.some_inj] at e2
    rw [e1, e2]
    split_ifs <;> try norm_num
    all_goals try push_neg at *
    all_goals linarith

/-- C8 witness: the ladder/monotonicity theorem applied at the concrete inputs
class "person", frame area 100, object areas 5 ≤ 16. -/
theorem C8_threshold_ladder_monotone_witness :
    (⟨1/20, "medium", true, 1⟩ : DistanceInfo).urgency ≤
      (⟨4/25, "very_close", true, 3⟩ : DistanceInfo).urgency :=
  (C8_threshold_ladder_monotone "person" 100 (by norm_num)).2 5 16 _ _
    (by norm_num)
    (by norm_num [calculate_distance_info, distance_thresholds])
    (by norm_num [calculate_distance_info, distance_thresholds])

/-! ## Claim C9 -/

/-- C9: for well-formed axis-aligned boxes, `calculate_iou` of two identical
boxes is 1, of two non-overlapping boxes is 0, and it is symmetric. -/
theorem C9_iou_identity_disjoint_symmetric :
    (∀ x1 y1 x2 y2 : ℤ, x1 < x2 → y1 < y2 →
       calculate_iou (x1, y1, x2, y2) (x1, y1, x2, y2) = 1) ∧
    (∀ x1 y1 x2 y2 x1' y1' x2' y2' : ℤ,
       (min x2 x2' ≤ max x1 x1' ∨ min y2 y2' ≤ max y1 y1') →
       calculate_iou (x1, y1, x2, y2) (x1', y1', x2', y2') = 0) ∧
    (∀ a b : ℤ × ℤ × ℤ × ℤ, calculate_iou a b = calculate_iou b a) := by
  refine ⟨?_, ?_, ?_⟩
  · intro x1 y1 x2 y2 hx hy
    unfold calculate_iou
    dsimp only
    rw [max_self, max_self, min_self, min_self]
    rw [if_neg (by push_neg; omega)]
    have harea : (0 : ℤ) < (x2 - x1) * (y2 - y1) :=
      mul_pos (by omega) (by omega)
    rw [if_pos (by omega :
      (x2 - x1) * (y2 - y1) + (x2 - x1) * (y2 - y1) - (x2 - x1) * (y2 - y1) > 0)]
    have hsum : ((x2 - x1) * (y2 - y1) + (x2 - x1) * (y2 - y1) -
        (x2 - x1) * (y2 - y1) : ℤ) = (x2 - x1) * (y2 - y1) := by ring
    rw [hsum]
    exact div_self (by exact_mod_cast harea.ne')
  · intro x1 y1 x2 y2 x1' y1' x2' y2' hdisj
    unfold calculate_iou
    dsimp only
    rw [if_pos hdisj]
  · intro a b
    obtain ⟨xa1, ya1, xa2, ya2⟩ := a
    obtain ⟨xb1, yb1, xb2, yb2⟩ := b
    unfold calculate_iou
    dsimp only
    rw [max_comm xb1 xa1, max_comm yb1 ya1, min_comm xb2 xa2, min_comm yb2 ya2,
        add_comm ((xb2 - xb1) * (yb2 - yb1)) ((xa2 - xa1) * (ya2 - ya1))]

/-- C9 witness: identity on the box (0,0,10,10) and disjointness against
(20,0,30,10). -/
theorem C9_iou_witness :
    calculate_iou (0, 0, 10, 10) (0, 0, 10, 10) = 1 ∧
    calculate_iou (0, 0, 10, 10) (20, 0, 30, 10) = 0 :=
  ⟨C9_iou_identity_disjoint_symmetric.1 0 0 10 10 (by decide) (by decide),
   C9_iou_identity_disjoint_symmetric.2.1 0 0 10 10 20 0 30 10 (by decide)⟩

/-! ## Claim C2 -/

/-- A concrete stable track whose distance history holds a single estimate of
2.0 m and whose throttle state starts at 0. -/
def c2_track : TrackedObject :=
  { track_id := 1, class_id := 0, class_name := "person"
    positions := [(0, 0)], bboxes := [(0, 0, 10, 10)], areas := [100]
    confidences := [1], first_seen := 0, last_seen := 0, last_alert_time := 0
    consecutive_detections := 3, missed_frames := 0, is_stable := true
    distances := [2], alert_count := 0, last_distance_alert := 0 }

/-- C2 counterexample: two `should_distance_alert` queries (with the default
interval 5.0, as called by `ObjectTracker.get_objects_for_alerts`) for the
same track at average distance 2.0 m, spaced 2.9 s apart, are BOTH accepted —
the effective interval below 3 m is 2.5 s, not the claimed 3 s. -/
theorem C2_counterexample :
    (TrackedObject.should_distance_alert c2_track 100 5).1 = true ∧
    (TrackedObject.should_distance_alert
      (TrackedObject.should_distance_alert c2_track 100 5).2 (1029/10) 5).1 =
      true := by
  norm_num [TrackedObject.should_distance_alert, c2_track]

/-- C2 amended: with the default interval 5.0 s the per-track distance-alert
throttle admits a continuous alert after 2.5 s when the average estimated
distance is below 3 m, after 5 s when it is in [3 m, 6 m), and after 10 s
when it is 6 m or more; an accepted query resets the per-track
`last_distance_alert` stamp to the query time. -/
theorem C2_distance_alert_intervals (t : TrackedObject) (now : ℚ)
    (hs : t.is_stable = true) (hd : t.distances ≠ []) :
    (t.distances.sum / (t.distances.length : ℚ) < 3 →
       ((TrackedObject.should_distance_alert t now 5).1 = true ↔
         now - t.last_distance_alert ≥ 5/2)) ∧
    (3 ≤ t.distances.sum / (t.distances.length : ℚ) →
     t.distances.sum / (t.distances.length : ℚ) < 6 →
       ((TrackedObject.should_distance_alert t now 5).1 = true ↔
         now - t.last_distance_alert ≥ 5)) ∧
    (6 ≤ t.distances.sum / (t.distances.length : ℚ) →
       ((TrackedObject.should_distance_alert t now 5).1 = true ↔
         now - t.last_distance_alert ≥ 10)) ∧
    ((TrackedObject.should_distance_alert t now 5).1 = true →
       (TrackedObject.should_distance_alert t now 5).2.last_distance_alert =
         now) := by
  have hng : ¬ (¬ t.is_stable = true ∨ t.distances = []) := by
    push_neg
    exact ⟨hs, hd⟩
  unfold TrackedObject.should_distance_alert
  rw [if_neg (by simpa using hng)]
  dsimp only
  refine ⟨?_, ?_, ?_, ?_⟩
  · intro hlt
    rw [if_pos hlt]
    constructor
    · intro h
      by_contra hc
      rw [if_neg hc] at h
      simp at h
    · intro h
      rw [if_pos h]
  · intro h3 h6
    rw [if_neg (not_lt.mpr h3), if_pos h6]
    constructor
    · intro h
      by_contra hc
      rw [if_neg hc] at h
      simp at h
    · intro h
      rw [if_pos h]
  · intro h6
    rw [if_neg (not_lt.mpr (by linarith)), if_neg (not_lt.mpr h6)]
    have h10 : (5 : ℚ) * 2 = 10 := by norm_num
    rw [h10]
    constructor
    · intro h
      by_contra hc
      rw [if_neg hc] at h
      simp at h
    · intro h
      rw [if_pos h]
  · intro h
    split_ifs at h ⊢ <;> rfl

/-- C2 witness: the amended interval theorem applied to the concrete track
`c2_track` (average distance 2.0 m) at query time 100 s. -/
theorem C2_distance_alert_intervals_witness :
    (TrackedObject.should_distance_alert c2_track 100 5).1 = true ↔
      (100 : ℚ) - c2_track.last_distance_alert ≥ 5/2 := by
  have h := C2_distance_alert_intervals c2_track 100 (by decide) (by decide)
  exact h.1 (by norm_num [c2_track])

/-! ## Claim C10 -/

/-- `should_alert` accepts exactly for a stable track past the interval. -/
lemma should_alert_iff (t : TrackedObject) (now i : ℚ) :
    (TrackedObject.should_alert t now i).1 = true ↔
      (t.is_stable = true ∧ now - t.last_alert_time ≥ i) := by
  unfold TrackedObject.should_alert
  split_ifs with h1 h2
  · exact iff_of_true rfl ⟨h1, h2⟩
  · exact iff_of_false (by simp) (fun h => h2 h.2)
  · exact iff_of_false (by simp) (fun h => h1 h.1)

/-- An accepted `should_alert` stamps the alert time and bumps the counter. -/
lemma should_alert_accept_state (t : TrackedObject) (now i : ℚ)
    (h : (TrackedObject.should_alert t now i).1 = true) :
    (TrackedObject.should_alert t now i).2 =
      { t with last_alert_time := now, alert_count := t.alert_count + 1 } := by
  unfold TrackedObject.should_alert at h ⊢
  split_ifs at h ⊢
  rfl

/-- A rejected `should_alert` leaves the track unchanged. -/
lemma should_alert_reject_state (t : TrackedObject) (now i : ℚ)
    (h : (TrackedObject.should_alert t now i).1 = false) :
    (TrackedObject.should_alert t now i).2 = t := by
  unfold TrackedObject.should_alert at h ⊢
  split_ifs at h ⊢ <;> rfl

/-- `should_alert` rejects when the last alert stamp already equals `now` and
the interval is positive. -/
lemma should_alert_reject_of_last_eq (t : TrackedObject) (now i : ℚ)
    (hi : 0 < i) (hlast : t.last_alert_time = now) :
    (TrackedObject.should_alert t now i).1 = false := by
  unfold TrackedObject.should_alert
  rw [hlast, sub_self]
  split_ifs with h1 h2 <;> first | rfl | linarith

/-- An accepted `should_distance_alert` stamps the distance-alert time. -/
lemma should_distance_alert_accept_state (t : TrackedObject) (now base : ℚ)
    (h : (TrackedObject.should_distance_alert t now base).1 = true) :
    (TrackedObject.should_distance_alert t now base).2 =
      { t with last_distance_alert := now } := by
  unfold TrackedObject.should_distance_alert at h ⊢
  dsimp only at h ⊢
  split_ifs at h ⊢ <;> rfl

/-- A rejected `should_distance_alert` leaves the track unchanged. -/
lemma should_distance_alert_reject_state (t : TrackedObject) (now base : ℚ)
    (h : (TrackedObject.should_distance_alert t now base).1 = false) :
    (TrackedObject.should_distance_alert t now base).2 = t := by
  unfold TrackedObject.should_distance_alert at h ⊢
  dsimp only at h ⊢
  split_ifs at h ⊢ <;> rfl

/-- `should_distance_alert` rejects when the last distance-alert stamp already
equals `now` and the base interval is positive. -/
lemma should_distance_alert_reject_of_last_eq (t : TrackedObject)
    (now base : ℚ) (hb : 0 < base) (hlast : t.last_distance_alert = now) :
    (TrackedObject.should_distance_alert t now base).1 = false := by
  unfold TrackedObject.should_distance_alert
  dsimp only
  rw [hlast, sub_self]
  split_ifs with h1 h2 h3 h4 h5 h6 <;> first | rfl | linarith

/-- C10: the track-level throttle queries are side-effecting exactly when they
accept. `should_alert` accepts iff the track is stable and the interval has
elapsed, and exactly then stamps `last_alert_time` and bumps `alert_count`;
`should_distance_alert` stamps `last_distance_alert` exactly when it accepts;
a rejected query leaves the track completely unchanged; and (for a positive
interval) an immediate repetition of an accepted query is never accepted. -/
theorem C10_throttle_effects (t : TrackedObject) (now i base : ℚ) :
    ((TrackedObject.should_alert t now i).1 = true ↔
       (t.is_stable = true ∧ now - t.last_alert_time ≥ i)) ∧
    ((TrackedObject.should_alert t now i).1 = true →
       (TrackedObject.should_alert t now i).2 =
         { t with last_alert_time := now, alert_count := t.alert_count + 1 }) ∧
    ((TrackedObject.should_alert t now i).1 = false →
       (TrackedObject.should_alert t now i).2 = t) ∧
    (0 < i →
       ¬ ((TrackedObject.should_alert t now i).1 = true ∧
          (TrackedObject.should_alert (TrackedObject.should_alert t now i).2
            now i).1 = true)) ∧
    ((TrackedObject.should_distance_alert t now base).1 = true →
       (TrackedObject.should_distance_alert t now base).2 =
         { t with last_distance_alert := now }) ∧
    ((TrackedObject.should_distance_alert t now base).1 = false →
       (TrackedObject.should_distance_alert t now base).2 = t) ∧
    (0 < base →
       ¬ ((TrackedObject.should_distance_alert t now base).1 = true ∧
          (TrackedObject.should_distance_alert
            (TrackedObject.should_distance_alert t now base).2 now base).1 =
            true)) := by
  refine ⟨should_alert_iff t now i,
          should_alert_accept_state t now i,
          should_alert_reject_state t now i, ?_,
          should_distance_alert_accept_state t now base,
          should_distance_alert_reject_state t now base, ?_⟩
  · intro hi
    rintro ⟨h1, h2⟩
    rw [should_alert_accept_state t now i h1] at h2
    rw [should_alert_reject_of_last_eq _ now i hi rfl] at h2
    exact absurd h2 (by simp)
  · intro hb
    rintro ⟨h1, h2⟩
    rw [should_distance_alert_accept_state t now base h1] at h2
    rw [should_distance_alert_reject_of_last_eq _ now base hb rfl] at h2
    exact absurd h2 (by simp)

/-- A concrete stable track for exercising the alert throttle. -/
def c10_track : TrackedObject :=
  { track_id := 2, class_id := 0, class_name := "car"
    positions := [(5, 5)], bboxes := [(0, 0, 10, 10)], areas := [100]
    confidences := [1], first_seen := 0, last_seen := 0, last_alert_time := 0
    consecutive_detections := 4, missed_frames := 0, is_stable := true
    distances := [2], alert_count := 0, last_distance_alert := 0 }

/-- C10 witness: the throttle-effect theorem at the concrete track
`c10_track`, query time 50 and interval 10. -/
theorem C10_throttle_effects_witness :
    (TrackedObject.should_alert c10_track 50 10).2 =
      { c10_track with last_alert_time := 50, alert_count := 1 } ∧
    ¬ ((TrackedObject.should_alert c10_track 50 10).1 = true ∧
       (TrackedObject.should_alert
         (TrackedObject.should_alert c10_track 50 10).2 50 10).1 = true) := by
  have h := C10_throttle_effects c10_track 50 10 5
  exact ⟨h.2.1 (by norm_num [TrackedObject.should_alert, c10_track]),
         h.2.2.2.1 (by norm_num)⟩

/-! ## Claim C6 -/

/-- `k` consecutive matched frames applied to a track (the same detection and
timestamp are reused; stability only depends on the counters). -/
def consec_updates (t : TrackedObject) (d : Detection) (now : ℚ) :
    ℕ → TrackedObject
  | 0 => t
  | k + 1 => TrackedObject.update (consec_updates t d now k) d now

/-- The hit counter of a fresh track after `k` consecutive updates. -/
lemma consec_updates_count (d0 d : Detection) (id : ℕ) (t0 now : ℚ) :
    ∀ k, (consec_updates (TrackedObject.init d0 id t0) d now k).consecutive_detections
      = k + 1 := by
  intro k
  induction k with
  | zero => rfl
  | succ n ih =>
    simp only [consec_updates, TrackedObject.update, ih]

/-- C6: a fresh track is stable exactly from its 3rd consecutive matched frame
on (creation counts as the 1st); a matched or missed frame never clears an
already-set stability flag; and a missed frame resets the hit counter to 0. -/
theorem C6_stability_flag (d0 d : Detection) (id : ℕ) (t0 now : ℚ) :
    (∀ k, (consec_updates (TrackedObject.init d0 id t0) d now k).is_stable
        = decide (3 ≤ k + 1)) ∧
    (∀ (t : TrackedObject) (d' : Detection) (now' : ℚ), t.is_stable = true →
        (TrackedObject.update t d' now').is_stable = true) ∧
    (∀ t : TrackedObject, t.is_stable = true →
        (TrackedObject.miss_frame t).is_stable = true) ∧
    (∀ t : TrackedObject,
        (TrackedObject.miss_frame t).consecutive_detections = 0) := by
  refine ⟨?_, ?_, ?_, ?_⟩
  · intro k
    induction k with
    | zero => rfl
    | succ n ih =>
      have hc := consec_updates_count d0 d id t0 now n
      simp only [consec_updates, TrackedObject.update, hc, min_stable_frames]
      split_ifs with h
      · rw [eq_comm, decide_eq_true_eq]
        omega
      · rw [ih]
        have hn : n = 0 := by omega
        subst hn
        rfl
  · intro t d' now' hs
    simp only [TrackedObject.update, min_stable_frames]
    split_ifs with h
    · rfl
    · exact hs
  · intro t hs
    exact hs
  · intro t
    rfl

/-- A concrete detection used to exercise the track state machine. -/
def c6_det : Detection :=
  { class_id := 0, class_name := "person", confidence := 1
    bbox := (0, 0, 10, 10), center := (5, 5), area := 100
    urgency := none, distance_meters := none }

/-- C6 witness: a fresh track is stable after its 3rd consecutive matched
frame (creation plus two updates), and a subsequent missed frame keeps the
flag set. -/
theorem C6_stability_flag_witness :
    (consec_updates (TrackedObject.init c6_det 1 0) c6_det 0 2).is_stable =
      true ∧
    (TrackedObject.miss_frame
      (consec_updates (TrackedObject.init c6_det 1 0) c6_det 0 2)).is_stable =
      true := by
  have h := C6_stability_flag c6_det c6_det 1 0 0
  have h2 : (consec_updates (TrackedObject.init c6_det 1 0) c6_det 0 2).is_stable
      = true := by
    rw [h.1 2]
    rfl
  exact ⟨h2, h.2.2.1 _ h2⟩

/-! ## Claim C7 -/

/-- C7: a track is expired exactly when its last-seen age exceeds 5 s or its
consecutive-miss count exceeds 10; the unmatched-track step of
`ObjectTracker.update` keeps exactly the non-expired tracks after the miss is
recorded; in particular a track reaching 11 misses is removed while one at
10 misses whose age is within 5 s survives. -/
theorem C7_track_expiry (now : ℚ) :
    (∀ t : TrackedObject,
       TrackedObject.is_expired t now 5 10 = true ↔
         (now - t.last_seen > 5 ∨ t.missed_frames > 10)) ∧
    (∀ (ts : List TrackedObject) (t : TrackedObject),
       t ∈ update_unmatched_tracks ts now ↔
         ((∃ s ∈ ts, TrackedObject.miss_frame s = t) ∧
          TrackedObject.is_expired t now 5 10 = false)) ∧
    (∀ t : TrackedObject, t.missed_frames = 10 →
       TrackedObject.is_expired (TrackedObject.miss_frame t) now 5 10 = true) ∧
    (∀ t : TrackedObject, t.missed_frames ≤ 9 → now - t.last_seen ≤ 5 →
       TrackedObject.is_expired (TrackedObject.miss_frame t) now 5 10 =
         false) := by
  refine ⟨?_, ?_, ?_, ?_⟩
  · intro t
    simp [TrackedObject.is_expired]
  · intro ts t
    simp [update_unmatched_tracks, List.mem_filter, List.mem_map]
  · intro t hm
    simp [TrackedObject.is_expired, TrackedObject.miss_frame, hm]
  · intro t hm ha
    simp [TrackedObject.is_expired, TrackedObject.miss_frame]
    constructor
    · linarith
    · omega

/-- A track that has already missed 10 consecutive frames. -/
def c7_track : TrackedObject :=
  { track_id := 3, class_id := 0, class_name := "car"
    positions := [(5, 5)], bboxes := [(0, 0, 10, 10)], areas := [100]
    confidences := [1], first_seen := 0, last_seen := 0, last_alert_time := 0
    consecutive_detections := 0, missed_frames := 10, is_stable := true
    distances := [], alert_count := 0, last_distance_alert := 0 }

/-- A track that has missed 9 consecutive frames and was last seen 3 s ago. -/
def c7_track9 : TrackedObject :=
  { c7_track with track_id := 4, missed_frames := 9 }

/-- C7 witness: at time 3 s, missing one more frame expires `c7_track`
(reaching 11 misses) but not `c7_track9` (reaching 10 misses, age 3 s). -/
theorem C7_track_expiry_witness :
    TrackedObject.is_expired (TrackedObject.miss_frame c7_track) 3 5 10 =
      true ∧
    TrackedObject.is_expired (TrackedObject.miss_frame c7_track9) 3 5 10 =
      false := by
  have h := C7_track_expiry 3
  exact ⟨h.2.2.1 c7_track rfl,
         h.2.2.2 c7_track9 (by norm_num [c7_track9, c7_track])
           (by norm_num [c7_track9, c7_track])⟩

/-! ## Claim C3 -/

/-- A concrete alert message. -/
def c3_msg : AlertMessage :=
  { text := "Person ahead", priority := 2, msg_type := "object_alert"
    track_id := some 1 }

/-- C3: the code contradicts the claimed capacity bound. With the queue
already holding `MAX_ALERT_QUEUE_SIZE = 10` messages, `is_queue_full` reports
full, yet a further `alert_queue.put` from `alert_close_object` succeeds and
grows the queue to 11 entries — the enqueue is never rejected, because
`VoiceAlert.__init__` builds `Queue()` without a `maxsize` and no producer
consults `is_queue_full`. Below (and above) capacity, enqueue always
succeeds without blocking. -/
theorem C3_queue_unbounded :
    (∀ (q : List AlertMessage) (m : AlertMessage),
        alert_queue_put q m = q ++ [m] ∧
        (alert_queue_put q m).length = q.length + 1) ∧
    (is_queue_full (List.replicate 10 c3_msg) = true ∧
     alert_queue_put (List.replicate 10 c3_msg) c3_msg =
       List.replicate 10 c3_msg ++ [c3_msg] ∧
     (alert_queue_put (List.replicate 10 c3_msg) c3_msg).length = 11 ∧
     11 > MAX_ALERT_QUEUE_SIZE) := by
  refine ⟨fun q m => ⟨rfl, by simp [alert_queue_put]⟩, ?_, rfl, ?_, ?_⟩
  · decide
  · decide
  · decide

/-! ## Claim C5 -/

/-- A detection counts as a zone member whenever its center point satisfies
the (inclusive) center rule of `_is_object_in_zone`. -/
lemma in_zone_of_center_cond (d : Detection) (z : ZoneBounds)
    (x1 y1 x2 y2 cx cy : ℤ) (hb : d.bbox = (x1, y1, x2, y2))
    (hc : d.center = (cx, cy))
    (h : z.x_min ≤ cx ∧ cx ≤ z.x_max ∧ z.y_min ≤ cy ∧ cy ≤ z.y_max) :
    is_object_in_zone d z = true := by
  unfold is_object_in_zone
  rw [hb, hc]
  dsimp only
  rw [if_pos h]

/-- When the detection center lies strictly outside the zone's x-range and at
most half of the bounding box (with a one-pixel margin) can overlap the zone,
`_is_object_in_zone` rejects the detection: the >50 % fallback cannot fire. -/
lemma not_in_zone_of_slack (d : Detection) (z : ZoneBounds)
    (x1 y1 x2 y2 cx cy : ℤ) (hb : d.bbox = (x1, y1, x2, y2))
    (hc : d.center = (cx, cy)) (hx : x1 < x2) (hy : y1 < y2)
    (hxout : ¬ (z.x_min ≤ cx ∧ cx ≤ z.x_max))
    (hslack : 2 * (max 0 (min x2 z.x_max - max x1 z.x_min)) ≤ x2 - x1 - 1) :
    is_object_in_zone d z = false := by
  unfold is_object_in_zone
  rw [hb, hc]
  dsimp only
  rw [if_neg (fun hcc => hxout ⟨hcc.1, hcc.2.1⟩)]
  rw [if_pos (mul_pos (by omega) (by omega) : (0:ℤ) < (x2 - x1) * (y2 - y1))]
  apply decide_eq_false
  rw [gt_iff_lt, not_lt]
  have hox : (0:ℤ) ≤ max 0 (min x2 z.x_max - max x1 z.x_min) := le_max_left _ _
  have hoy0 : (0:ℤ) ≤ max 0 (min y2 z.y_max - max y1 z.y_min) := le_max_left _ _
  have hoy : max 0 (min y2 z.y_max - max y1 z.y_min) ≤ y2 - y1 := by omega
  have e1 : (2 * max 0 (min x2 z.x_max - max x1 z.x_min)) *
      max 0 (min y2 z.y_max - max y1 z.y_min) ≤
      (x2 - x1 - 1) * max 0 (min y2 z.y_max - max y1 z.y_min) :=
    mul_le_mul_of_nonneg_right hslack hoy0
  have e2 : (x2 - x1 - 1) * max 0 (min y2 z.y_max - max y1 z.y_min) ≤
      (x2 - x1 - 1) * (y2 - y1) :=
    mul_le_mul_of_nonneg_left hoy (by omega)
  have e3 : (x2 - x1 - 1) * (y2 - y1) ≤ (x2 - x1) * (y2 - y1) :=
    mul_le_mul_of_nonneg_right (by omega) (by omega)
  have hkey : 2 * (max 0 (min x2 z.x_max - max x1 z.x_min) *
      max 0 (min y2 z.y_max - max y1 z.y_min)) ≤ (x2 - x1) * (y2 - y1) := by
    nlinarith [e1, e2, e3]
  have hobj : (0:ℚ) < (((x2 - x1) * (y2 - y1) : ℤ) : ℚ) := by
    exact_mod_cast mul_pos (by omega : (0:ℤ) < x2 - x1) (by omega : (0:ℤ) < y2 - y1)
  rw [div_le_iff₀ hobj]
  have h2 : ((2 * ((0 ⊔ (x2 ⊓ z.x_max - x1 ⊔ z.x_min)) *
      (0 ⊔ (y2 ⊓ z.y_max - y1 ⊔ z.y_min))) : ℤ) : ℚ) ≤
      (((x2 - x1) * (y2 - y1) : ℤ) : ℚ) := Int.cast_le.mpr hkey
  push_cast at h2 ⊢
  linarith

/-- A detection whose center (99, 50) sits exactly on the left/center zone
boundary of a 300-pixel-wide frame. -/
def c5_det : Detection :=
  { class_id := 0, class_name := "person", confidence := 1
    bbox := (89, 40, 109, 60), center := (99, 50), area := 400
    urgency := none, distance_meters := none }

/-- C5 counterexample: the zone bounds are CLOSED on both sides
(`x_min <= cx <= x_max`), so the three zones of a 300x100 frame overlap at
the boundary columns, and the detection `c5_det`, whose center (inside the
frame) lies exactly on the shared boundary x = 99, is counted as a member of
BOTH the left and the center zone — the claimed half-open partition with
single-zone assignment does not hold. -/
theorem C5_counterexample :
    ((0:ℤ) ≤ 99 ∧ (99:ℤ) < 300 ∧ (0:ℤ) ≤ 50 ∧ (50:ℤ) < 100) ∧
    is_object_in_zone c5_det (calculate_zone_boundaries 300 100).1 = true ∧
    is_object_in_zone c5_det (calculate_zone_boundaries 300 100).2.1 =
      true := by
  refine ⟨by norm_num, ?_, ?_⟩ <;> decide

/-- C5 amended: the three zones are the contiguous closed bands
[0, int(0.33 w)], [int(0.33 w), int(0.67 w)], [int(0.67 w), w]: they cover the
full width with no gaps, but adjacent zones share their boundary column. A
detection with a well-formed box, center = floored box midpoint, center
inside the frame and center_x NOT on a boundary is assigned to exactly one
zone (the fallback cannot add a second); a detection whose center_x equals a
boundary is assigned to both adjacent zones. -/
theorem C5_zone_partition (w h : ℤ) (hw : 0 < w) :
    (calculate_zone_boundaries w h =
       (⟨0, (33 * w) / 100, 0, h⟩, ⟨(33 * w) / 100, (67 * w) / 100, 0, h⟩,
        ⟨(67 * w) / 100, w, 0, h⟩) ∧
     0 ≤ (33 * w) / 100 ∧ (33 * w) / 100 ≤ (67 * w) / 100 ∧
     (67 * w) / 100 ≤ w) ∧
    (∀ (d : Detection) (x1 y1 x2 y2 cx cy : ℤ),
       d.bbox = (x1, y1, x2, y2) → d.center = (cx, cy) →
       0 ≤ x1 → x1 < x2 → y1 < y2 → cx = (x1 + x2) / 2 →
       0 ≤ cy → cy ≤ h → cx < w →
       cx ≠ (33 * w) / 100 → cx ≠ (67 * w) / 100 →
       ((is_object_in_zone d ⟨0, (33 * w) / 100, 0, h⟩ = true ∧
         is_object_in_zone d ⟨(33 * w) / 100, (67 * w) / 100, 0, h⟩ = false ∧
         is_object_in_zone d ⟨(67 * w) / 100, w, 0, h⟩ = false) ∨
        (is_object_in_zone d ⟨0, (33 * w) / 100, 0, h⟩ = false ∧
         is_object_in_zone d ⟨(33 * w) / 100, (67 * w) / 100, 0, h⟩ = true ∧
         is_object_in_zone d ⟨(67 * w) / 100, w, 0, h⟩ = false) ∨
        (is_object_in_zone d ⟨0, (33 * w) / 100, 0, h⟩ = false ∧
         is_object_in_zone d ⟨(33 * w) / 100, (67 * w) / 100, 0, h⟩ = false ∧
         is_object_in_zone d ⟨(67 * w) / 100, w, 0, h⟩ = true))) ∧
    (∀ (d : Detection) (x1 y1 x2 y2 cx cy : ℤ),
       d.bbox = (x1, y1, x2, y2) → d.center = (cx, cy) →
       0 ≤ cy → cy ≤ h →
       ((cx = (33 * w) / 100 →
           is_object_in_zone d ⟨0, (33 * w) / 100, 0, h⟩ = true ∧
           is_object_in_zone d ⟨(33 * w) / 100, (67 * w) / 100, 0, h⟩ = true) ∧
        (cx = (67 * w) / 100 →
           is_object_in_zone d ⟨(33 * w) / 100, (67 * w) / 100, 0, h⟩ = true ∧
           is_object_in_zone d ⟨(67 * w) / 100, w, 0, h⟩ = true))) := by
  have hlb0 : 0 ≤ (33 * w) / 100 := by omega
  have hlbrb : (33 * w) / 100 ≤ (67 * w) / 100 := by omega
  have hrbw : (67 * w) / 100 ≤ w := by omega
  refine ⟨⟨rfl, hlb0, hlbrb, hrbw⟩, ?_, ?_⟩
  · intro d x1 y1 x2 y2 cx cy hb hc hx1 hx hy hcx hcy1 hcy2 hcw hne1 hne2
    have hmid : 2 * cx ≤ x1 + x2 ∧ x1 + x2 ≤ 2 * cx + 1 := by omega
    rcases lt_trichotomy cx ((33 * w) / 100) with hlt | heq | hgt
    · left
      refine ⟨in_zone_of_center_cond d _ x1 y1 x2 y2 cx cy hb hc
          ⟨by dsimp only; omega, by dsimp only; omega, hcy1, hcy2⟩,
        not_in_zone_of_slack d _ x1 y1 x2 y2 cx cy hb hc hx hy
          (by dsimp only; omega) (by dsimp only; omega),
        not_in_zone_of_slack d _ x1 y1 x2 y2 cx cy hb hc hx hy
          (by dsimp only; omega) (by dsimp only; omega)⟩
    · exact absurd heq hne1
    · rcases lt_trichotomy cx ((67 * w) / 100) with hlt2 | heq2 | hgt2
      · right; left
        refine ⟨not_in_zone_of_slack d _ x1 y1 x2 y2 cx cy hb hc hx hy
            (by dsimp only; omega) (by dsimp only; omega),
          in_zone_of_center_cond d _ x1 y1 x2 y2 cx cy hb hc
            ⟨by dsimp only; omega, by dsimp only; omega, hcy1, hcy2⟩,
          not_in_zone_of_slack d _ x1 y1 x2 y2 cx cy hb hc hx hy
            (by dsimp only; omega) (by dsimp only; omega)⟩
      · exact absurd heq2 hne2
      · right; right
        refine ⟨not_in_zone_of_slack d _ x1 y1 x2 y2 cx cy hb hc hx hy
            (by dsimp only; omega) (by dsimp only; omega),
          not_in_zone_of_slack d _ x1 y1 x2 y2 cx cy hb hc hx hy
            (by dsimp only; omega) (by dsimp only; omega),
          in_zone_of_center_cond d _ x1 y1 x2 y2 cx cy hb hc
            ⟨by dsimp only; omega, by dsimp only; omega, hcy1, hcy2⟩⟩
  · intro d x1 y1 x2 y2 cx cy hb hc hcy1 hcy2
    constructor
    · intro hcl
      exact ⟨in_zone_of_center_cond d _ x1 y1 x2 y2 cx cy hb hc
          ⟨by dsimp only; omega, by dsimp only; omega, hcy1, hcy2⟩,
        in_zone_of_center_cond d _ x1 y1 x2 y2 cx cy hb hc
          ⟨by dsimp only; omega, by dsimp only; omega, hcy1, hcy2⟩⟩
    · intro hcr
      exact ⟨in_zone_of_center_cond d _ x1 y1 x2 y2 cx cy hb hc
          ⟨by dsimp only; omega, by dsimp only; omega, hcy1, hcy2⟩,
        in_zone_of_center_cond d _ x1 y1 x2 y2 cx cy hb hc
          ⟨by dsimp only; omega, by dsimp only; omega, hcy1, hcy2⟩⟩

/-- A detection centered at (150, 50) in a 300x100 frame, strictly inside the
center zone. -/
def c5_wit_det : Detection :=
  { class_id := 0, class_name := "person", confidence := 1
    bbox := (140, 40, 160, 60), center := (150, 50), area := 400
    urgency := none, distance_meters := none }

/-- C5 witness: the amended partition theorem applied to the 300x100 frame
and the off-boundary detection `c5_wit_det`. -/
theorem C5_zone_partition_witness :
    (is_object_in_zone c5_wit_det ⟨0, 99, 0, 100⟩ = true ∧
     is_object_in_zone c5_wit_det ⟨99, 201, 0, 100⟩ = false ∧
     is_object_in_zone c5_wit_det ⟨201, 300, 0, 100⟩ = false) ∨
    (is_object_in_zone c5_wit_det ⟨0, 99, 0, 100⟩ = false ∧
     is_object_in_zone c5_wit_det ⟨99, 201, 0, 100⟩ = true ∧
     is_object_in_zone c5_wit_det ⟨201, 300, 0, 100⟩ = false) ∨
    (is_object_in_zone c5_wit_det ⟨0, 99, 0, 100⟩ = false ∧
     is_object_in_zone c5_wit_det ⟨99, 201, 0, 100⟩ = false ∧
     is_object_in_zone c5_wit_det ⟨201, 300, 0, 100⟩ = true) :=
  (C5_zone_partition 300 100 (by norm_num)).2.1 c5_wit_det 140 40 160 60 150 50
    rfl rfl (by norm_num) (by norm_num) (by norm_num) (by decide) (by norm_num)
    (by norm_num) (by norm_num) (by decide) (by decide)

/-! ## Claim C1 -/

/-- A zone analysis that reports blocked never reports passable: `passable`
is defined as not-blocked AND low risk. -/
lemma analyze_zone_blocked_not_passable (ds : List Detection) (z : ZoneBounds)
    (fh fw : ℤ) (h : (analyze_zone ds z fh fw).blocked = true) :
    (analyze_zone ds z fh fw).passable = false := by
  unfold analyze_zone at h ⊢
  dsimp only at h ⊢
  rw [h]
  simp

lemma nav_decision_cases (L C R : ZoneAnalysis) :
    (C.passable = false →
       (make_navigation_decision L C R).direction ≠ some "forward") ∧
    (C.passable = false → C.blocked = true → L.passable = false →
     R.passable = false →
       (make_navigation_decision L C R).direction = some "stop" ∧
       (make_navigation_decision L C R).confidence = 9/10) ∧
    (C.passable = false → C.blocked = false →
       (make_navigation_decision L C R).direction = none ∧
       (make_navigation_decision L C R).confidence = 0) := by
  unfold make_navigation_decision
  dsimp only
  refine ⟨?_, ?_, ?_⟩
  · intro hp
    rw [if_neg (by simp [hp])]
    split_ifs <;> simp
  · intro hp hb hl hr
    rw [if_neg (by simp [hp]), if_pos hb,
        if_neg (fun hcc => by simp [hl] at hcc),
        if_neg (fun hcc => by simp [hr] at hcc),
        if_neg (by simp [hl]), if_neg (by simp [hr])]
    exact ⟨rfl, rfl⟩
  · intro hp hb
    rw [if_neg (by simp [hp]), if_neg (by simp [hb])]
    exact ⟨rfl, rfl⟩

lemma analyze_regions_eq (ds : List Detection) (fh fw : ℤ) (hne : ds ≠ []) :
    analyze_regions ds fh fw =
      { left_zone :=
          analyze_zone ds (calculate_zone_boundaries fw fh).1 fh fw
        center_zone :=
          analyze_zone ds (calculate_zone_boundaries fw fh).2.1 fh fw
        right_zone :=
          analyze_zone ds (calculate_zone_boundaries fw fh).2.2 fh fw
        center_blocked :=
          (analyze_zone ds (calculate_zone_boundaries fw fh).2.1 fh fw).blocked
        recommended_direction :=
          (make_navigation_decision
            (analyze_zone ds (calculate_zone_boundaries fw fh).1 fh fw)
            (analyze_zone ds (calculate_zone_boundaries fw fh).2.1 fh fw)
            (analyze_zone ds (calculate_zone_boundaries fw fh).2.2 fh fw)).direction
        confidence :=
          (make_navigation_decision
            (analyze_zone ds (calculate_zone_boundaries fw fh).1 fh fw)
            (analyze_zone ds (calculate_zone_boundaries fw fh).2.1 fh fw)
            (analyze_zone ds (calculate_zone_boundaries fw fh).2.2 fh fw)).confidence
        safe_zones :=
          (make_navigation_decision
            (analyze_zone ds (calculate_zone_boundaries fw fh).1 fh fw)
            (analyze_zone ds (calculate_zone_boundaries fw fh).2.1 fh fw)
            (analyze_zone ds (calculate_zone_boundaries fw fh).2.2 fh fw)).safe_zones
        risk_level :=
          (make_navigation_decision
            (analyze_zone ds (calculate_zone_boundaries fw fh).1 fh fw)
            (analyze_zone ds (calculate_zone_boundaries fw fh).2.1 fh fw)
            (analyze_zone ds (calculate_zone_boundaries fw fh).2.2 fh fw)).risk_level
        total_objects := ds.length } := by
  unfold analyze_regions
  rw [if_neg hne]

/-- An urgency-2 object in the left zone of a 300x100 frame. -/
def c1_left_det : Detection :=
  { class_id := 0, class_name := "person", confidence := 1
    bbox := (40, 40, 60, 60), center := (50, 50), area := 400
    urgency := some 2, distance_meters := none }

/-- An urgency-2 object in the center zone of a 300x100 frame. -/
def c1_center_det : Detection :=
  { class_id := 0, class_name := "person", confidence := 1
    bbox := (140, 40, 160, 60), center := (150, 50), area := 400
    urgency := some 2, distance_meters := none }

/-- An urgency-2 object in the right zone of a 300x100 frame. -/
def c1_right_det : Detection :=
  { class_id := 0, class_name := "person", confidence := 1
    bbox := (240, 40, 260, 60), center := (250, 50), area := 400
    urgency := some 2, distance_meters := none }

/-- A single very-close (urgency-3) object centered in a 300x100 frame. -/
def c1_vc_det : Detection :=
  { class_id := 0, class_name := "person", confidence := 1
    bbox := (130, 30, 170, 70), center := (150, 50), area := 1600
    urgency := some 3, distance_meters := none }

set_option maxHeartbeats 4000000 in
/-- C1 counterexample: one urgency-2 object per zone makes every zone
risk-level medium but NOT blocked, hence not passable. The center zone is
not passable and neither side zone is passable, yet the decision is the
Python value `None` with confidence 0 — not 'stop' with confidence 0.9: the
stop branch is only reachable when the center zone is `blocked`. -/
theorem C1_counterexample :
    (analyze_regions [c1_left_det, c1_center_det, c1_right_det] 100
      300).center_zone.passable = false ∧
    (analyze_regions [c1_left_det, c1_center_det, c1_right_det] 100
      300).left_zone.passable = false ∧
    (analyze_regions [c1_left_det, c1_center_det, c1_right_det] 100
      300).right_zone.passable = false ∧
    (analyze_regions [c1_left_det, c1_center_det, c1_right_det] 100
      300).center_zone.blocked = false ∧
    (analyze_regions [c1_left_det, c1_center_det, c1_right_det] 100
      300).recommended_direction = none ∧
    (analyze_regions [c1_left_det, c1_center_det, c1_right_det] 100
      300).recommended_direction ≠ some "stop" := by
  norm_num [analyze_regions, analyze_zone, is_object_in_zone, is_zone_blocked,
    zone_risk_score, calculate_zone_boundaries, MAX_OBJECTS_PER_ZONE,
    make_navigation_decision, calculate_zone_score, c1_left_det, c1_center_det,
    c1_right_det]
  decide

set_option maxHeartbeats 4000000 in
/-- C1 amended: whenever the center zone is not passable the decision is
never 'forward'; when the center zone is BLOCKED and neither the left nor
the right zone is passable, the decision is 'stop' with confidence 0.9; but
when the center zone is not passable yet not blocked (medium/high risk
without a blocking trigger), the decision is `None` with confidence 0.
A single very-close (urgency-3) object centered in the frame does make the
center zone blocked and the decision is not 'forward'. -/
theorem C1_navigation_decision (ds : List Detection) (fh fw : ℤ)
    (hne : ds ≠ []) :
    ((analyze_regions ds fh fw).center_zone.passable = false →
       (analyze_regions ds fh fw).recommended_direction ≠ some "forward") ∧
    ((analyze_regions ds fh fw).center_zone.blocked = true →
       (analyze_regions ds fh fw).left_zone.passable = false →
       (analyze_regions ds fh fw).right_zone.passable = false →
       (analyze_regions ds fh fw).recommended_direction = some "stop" ∧
       (analyze_regions ds fh fw).confidence = 9/10) ∧
    ((analyze_regions ds fh fw).center_zone.passable = false →
       (analyze_regions ds fh fw).center_zone.blocked = false →
       (analyze_regions ds fh fw).recommended_direction = none ∧
       (analyze_regions ds fh fw).confidence = 0) ∧
    ((analyze_regions [c1_vc_det] 100 300).center_zone.blocked = true ∧
     (analyze_regions [c1_vc_det] 100 300).recommended_direction ≠
       some "forward") := by
  have hconc : (analyze_regions [c1_vc_det] 100 300).center_zone.blocked
      = true := by
    rw [analyze_regions_eq _ _ _ (by simp)]
    dsimp only
    norm_num [analyze_zone, is_object_in_zone, is_zone_blocked,
      zone_risk_score, calculate_zone_boundaries, MAX_OBJECTS_PER_ZONE,
      c1_vc_det]
  have hdir : (analyze_regions [c1_vc_det] 100 300).recommended_direction ≠
      some "forward" := by
    rw [analyze_regions_eq _ _ _ (by simp)] at hconc ⊢
    dsimp only at hconc ⊢
    exact (nav_decision_cases _ _ _).1
      (analyze_zone_blocked_not_passable _ _ _ _ hconc)
  rw [analyze_regions_eq ds fh fw hne]
  dsimp only
  have h := nav_decision_cases
    (analyze_zone ds (calculate_zone_boundaries fw fh).1 fh fw)
    (analyze_zone ds (calculate_zone_boundaries fw fh).2.1 fh fw)
    (analyze_zone ds (calculate_zone_boundaries fw fh).2.2 fh fw)
  exact ⟨h.1,
    fun hb hl hr => h.2.1
      (analyze_zone_blocked_not_passable ds _ fh fw hb) hb hl hr,
    h.2.2, hconc, hdir⟩

set_option maxHeartbeats 4000000 in
/-- C1 witness: the amended theorem applied to the concrete three-object
frame in which no zone is passable and the center zone is not blocked. -/
theorem C1_navigation_decision_witness :
    (analyze_regions [c1_left_det, c1_center_det, c1_right_det] 100
      300).recommended_direction = none ∧
    (analyze_regions [c1_left_det, c1_center_det, c1_right_det] 100
      300).confidence = 0 := by
  have h := C1_navigation_decision [c1_left_det, c1_center_det, c1_right_det]
    100 300 (by simp)
  have hp : (analyze_regions [c1_left_det, c1_center_det, c1_right_det] 100
      300).center_zone.passable = false := by
    rw [analyze_regions_eq _ _ _ (by simp)]
    dsimp only
    norm_num [analyze_zone, is_object_in_zone, is_zone_blocked,
      zone_risk_score, calculate_zone_boundaries, MAX_OBJECTS_PER_ZONE,
      c1_left_det, c1_center_det, c1_right_det]
    all_goals decide
  have hb : (analyze_regions [c1_left_det, c1_center_det, c1_right_det] 100
      300).center_zone.blocked = false := by
    rw [analyze_regions_eq _ _ _ (by simp)]
    dsimp only
    norm_num [analyze_zone, is_object_in_zone, is_zone_blocked,
      zone_risk_score, calculate_zone_boundaries, MAX_OBJECTS_PER_ZONE,
      c1_left_det, c1_center_det, c1_right_det]
  exact h.2.2.1 hp hb
